import Mathlib

/-!
Shallow embedding of the control transport and wire protocol of `sup-rs`
(src/controller/command.rs): the `Command` / `Request` / `Response` codec and
the `UnixSocketTp` transport.  Rust `u8` bytes are modelled as `Nat` values
(< 256 where it matters), `u32` arithmetic carries an explicit `% 2 ^ 32`,
Rust `String`s are modelled by their UTF-8 byte lists, and a Rust panic is
modelled by an `Option` returning `none`.
-/

/-- `const BYTES_PER_PID: usize = 4` (command.rs line 13). -/
def BYTES_PER_PID : Nat := 4

/-- The `Command` enum (command.rs lines 132-151). -/
inductive Command
  | Start
  | Stop
  | Restart
  | Kill
  | Reload
  | Status
  | Exit
  | Unknown
deriving DecidableEq, Repr

/-- `impl From<Vec<u8>> for Command` (command.rs lines 235-251): a vector
whose length is not 1 decodes to `Unknown`; otherwise the single byte is
matched against the ordinals 0-6, everything else giving `Unknown`. -/
def commandOfBytes : List Nat → Command
  | [b] =>
    match b with
    | 0 => Command.Start
    | 1 => Command.Stop
    | 2 => Command.Restart
    | 3 => Command.Kill
    | 4 => Command.Reload
    | 5 => Command.Status
    | 6 => Command.Exit
    | _ => Command.Unknown
  | _ => Command.Unknown

/-- `impl From<Command> for Vec<u8>` (command.rs lines 253-266). -/
def bytesOfCommand : Command → List Nat
  | Command.Start => [0]
  | Command.Stop => [1]
  | Command.Restart => [2]
  | Command.Kill => [3]
  | Command.Reload => [4]
  | Command.Status => [5]
  | Command.Exit => [6]
  | Command.Unknown => [7]

/-- The `Response` struct (command.rs lines 214-218); the Rust `String`
field `message` is modelled by its UTF-8 byte list. -/
structure Response where
  message : List Nat
  sup_pid : Option Nat
deriving DecidableEq, Repr

/-- `Response::NONE_PID` (command.rs line 302). -/
def Response.NONE_PID : Nat := 0

/-- `Response::marshal_msg` (command.rs lines 303-305): `String::into_bytes`
is the identity on the byte-list model of the message. -/
def Response.marshal_msg (r : Response) : List Nat :=
  r.message

/-- `Response::marshal_sup_pid` (command.rs lines 307-319): the PID (or the
`NONE_PID` sentinel 0 when absent) is emitted as 4 bytes, most significant
first; `as u8` is truncation `% 256`. -/
def Response.marshal_sup_pid (r : Response) : List Nat :=
  let pid := match r.sup_pid with
    | some pid => pid
    | none => Response.NONE_PID
  [(pid >>> 24) % 256, (pid >>> 16) % 256, (pid >>> 8) % 256, pid % 256]

/-- `impl From<Response> for Vec<u8>` (command.rs lines 280-287). -/
def bytesOfResponse (r : Response) : List Nat :=
  r.marshal_sup_pid ++ r.marshal_msg

/-- The loop of `Response::unmarshal_sup_pid` (command.rs lines 330-332):
`pid += (e as u32) << (8 * i)` over the enumerated bytes, in wrapping
`u32` arithmetic. -/
def unmarshalPidLoop (pid : Nat) (i : Nat) : List Nat → Nat
  | [] => pid
  | e :: rest =>
    unmarshalPidLoop ((pid + (e <<< (8 * i)) % 2 ^ 32) % 2 ^ 32) (i + 1) rest

/-- `Response::unmarshal_sup_pid` (command.rs lines 325-340): starting from
the current `sup_pid` (an early return when it is `None`), accumulate the
bytes least-significant first, then map the sentinel 0 to `None`. -/
def Response.unmarshal_sup_pid (r : Response) (v : List Nat) : Response :=
  match r.sup_pid with
  | none => r
  | some pid0 =>
    let pid := unmarshalPidLoop pid0 0 v
    if pid = Response.NONE_PID then { r with sup_pid := none }
    else { r with sup_pid := some pid }

/-- Continuation byte test `0x80..=0xBF`, as in Rust core's UTF-8 validation
used by `String::from_utf8`. -/
def isCont (b : Nat) : Bool :=
  0x80 ≤ b && b ≤ 0xBF

/-- Modelled from the spec: the UTF-8 validity check performed by
`String::from_utf8` (Rust standard library, not part of this repository),
which `Response::unmarshal_msg` relies on; per RFC 3629 it rejects
continuation-byte starts, overlong forms, surrogates and values above
U+10FFFF. -/
def validUtf8 : List Nat → Bool
  | [] => true
  | b :: rest =>
    if b ≤ 0x7F then validUtf8 rest
    else if 0xC2 ≤ b && b ≤ 0xDF then
      match rest with
      | b1 :: rest2 => isCont b1 && validUtf8 rest2
      | [] => false
    else if 0xE0 ≤ b && b ≤ 0xEF then
      match rest with
      | b1 :: b2 :: rest3 =>
        (if b = 0xE0 then 0xA0 ≤ b1 && b1 ≤ 0xBF
         else if b = 0xED then 0x80 ≤ b1 && b1 ≤ 0x9F
         else isCont b1) && isCont b2 && validUtf8 rest3
      | _ => false
    else if 0xF0 ≤ b && b ≤ 0xF4 then
      match rest with
      | b1 :: b2 :: b3 :: rest4 =>
        (if b = 0xF0 then 0x90 ≤ b1 && b1 ≤ 0xBF
         else if b = 0xF4 then 0x80 ≤ b1 && b1 ≤ 0x8F
         else isCont b1) && isCont b2 && isCont b3 && validUtf8 rest4
      | _ => false
    else false

/-- `Response::unmarshal_msg` (command.rs lines 321-323):
`String::from_utf8(v).unwrap()` panics on invalid UTF-8, modelled as
`none`; on valid UTF-8 the message becomes exactly those bytes. -/
def Response.unmarshal_msg (r : Response) (v : List Nat) : Option Response :=
  if validUtf8 v then some { r with message := v } else none

/-- `impl From<Vec<u8>> for Response` (command.rs lines 289-299): the start
state is `{message: "", sup_pid: Some(0)}`; `v.index(..BYTES_PER_PID)`
panics (modelled as `none`) when the input is shorter than 4 bytes. -/
def responseOfBytes (v : List Nat) : Option Response :=
  if v.length < BYTES_PER_PID then none
  else
    let s0 : Response := { message := [], sup_pid := some 0 }
    let s1 := s0.unmarshal_sup_pid (v.take BYTES_PER_PID)
    s1.unmarshal_msg (v.drop BYTES_PER_PID)

/-- Modelled from the spec: the error taxonomy type `ProcessErr` lives in
src/controller/error.rs, which is not included; the variants and their
argument arities are taken from their construction sites in command.rs
(lines 102, 108, 118-121, 125, 127) and §7 of the spec ("distinct errors"
for each failure kind). -/
inductive ProcessErr
  | ReadFromChannelFail (msg : String)
  | ChannelUsedBeforeInited (which : String)
  | StreamUsedBeforeInited (which : String)
  | WriteToStreamFailed (msg : String)
  | ShutdownStreamFailed (which : String) (msg : String)
deriving DecidableEq, Repr

/-- A `UnixStream` connection, modelled by an identity, the bytes written to
it so far, and whether its write direction has been shut down. -/
structure ModelStream where
  id : Nat
  written : List Nat
  writeClosed : Bool
deriving DecidableEq, Repr

/-- The shared crossbeam unbounded channel: the FIFO queue of accepted
connections plus whether the producer (sender) side has disconnected. -/
structure Channel where
  queue : List ModelStream
  senderDropped : Bool
deriving DecidableEq, Repr

/-- `crossbeam::channel::Sender::send` on an unbounded channel: enqueue at
the tail (command.rs line 83, the accept loop's hand-off). -/
def Channel.send (ch : Channel) (c : ModelStream) : Channel :=
  { ch with queue := ch.queue ++ [c] }

/-- The `UnixSocketTp` struct (command.rs lines 36-41).  `listen_send` and
`listen_recv` are the two endpoints of one shared channel; its state is
carried inside `listen_recv`, and `listen_send` records only whether the
sender endpoint is present. -/
structure UnixSocketTp where
  socket_path : String
  stream : Option ModelStream
  listen_recv : Option Channel
  listen_send : Bool
deriving DecidableEq, Repr

/-- `UnixSocketTp::new` (command.rs lines 44-52): a fresh unbounded channel,
no held stream. -/
def UnixSocketTp.new (socket_path : String) : UnixSocketTp :=
  { socket_path := socket_path, stream := none
    listen_recv := some { queue := [], senderDropped := false }
    listen_send := true }

/-- One iteration of the accept loop body of `UnixSocketTp::serve`
(command.rs lines 82-88) for a successfully accepted connection: when the
sender endpoint is present, push the connection onto the shared channel
(state held in `listen_recv`); otherwise only an error is logged. -/
def UnixSocketTp.serveAccept (tp : UnixSocketTp) (c : ModelStream) : UnixSocketTp :=
  if tp.listen_send then
    match tp.listen_recv with
    | some ch => { tp with listen_recv := some (ch.send c) }
    | none => tp
  else tp

/-- Display string of crossbeam's `RecvError`, produced by `e.to_string()`
at command.rs line 102. -/
def recvDisconnectMsg : String :=
  "receiving on an empty and disconnected channel"

/-- Result of `UnixSocketTp::read`: a connection plus the transport with the
advanced channel, a `ProcessErr`, or blocking until a message arrives. -/
inductive ReadRes
  | ok (c : ModelStream) (tp : UnixSocketTp)
  | err (e : ProcessErr)
  | blocked
deriving DecidableEq, Repr

/-- `UnixSocketTp::read` (command.rs lines 92-110): error when `listen_recv`
is `None`; otherwise `select!`/`recv` dequeues the head of the FIFO queue,
blocks when the queue is empty and the sender is still connected, and yields
`RecvError` (mapped to `ReadFromChannelFail`) when the queue is empty and
the sender has disconnected. -/
def UnixSocketTp.read (tp : UnixSocketTp) : ReadRes :=
  match tp.listen_recv with
  | none => ReadRes.err (ProcessErr.ChannelUsedBeforeInited "recv")
  | some ch =>
    match ch.queue with
    | c :: rest =>
      ReadRes.ok c { tp with listen_recv := some { ch with queue := rest } }
    | [] =>
      if ch.senderDropped then
        ReadRes.err (ProcessErr.ReadFromChannelFail recvDisconnectMsg)
      else ReadRes.blocked

/-- Outcome of one fallible I/O call (`UnixStream::write` /
`UnixStream::shutdown`), injected as a parameter of the model. -/
inductive Outcome
  | ok
  | fail (msg : String)
deriving DecidableEq, Repr

/-- `UnixSocketTp::write` (command.rs lines 113-129): with no held stream,
`StreamUsedBeforeInited("write")`; otherwise send the bytes (a failed send
giving `WriteToStreamFailed`), then shut down the write direction (a failure
giving `ShutdownStreamFailed("write", e)`), returning the connection on
success.  `sendOut` and `shutOut` are the outcomes of the two I/O calls. -/
def UnixSocketTp.write (tp : UnixSocketTp) (v : List Nat)
    (sendOut shutOut : Outcome) : Except ProcessErr ModelStream :=
  match tp.stream with
  | none => Except.error (ProcessErr.StreamUsedBeforeInited "write")
  | some s =>
    match sendOut with
    | Outcome.fail e => Except.error (ProcessErr.WriteToStreamFailed e)
    | Outcome.ok =>
      match shutOut with
      | Outcome.fail e => Except.error (ProcessErr.ShutdownStreamFailed "write" e)
      | Outcome.ok =>
        Except.ok { s with written := s.written ++ v, writeClosed := true }

/-- Byte reversal of a 32-bit value: what decoding the big-endian encoding
of `p` least-significant-byte first actually reconstructs.  Used only to
state what the asymmetric Response round-trip yields. -/
def bswap32 (p : Nat) : Nat :=
  p % 256 * 2 ^ 24 + p / 2 ^ 8 % 256 * 2 ^ 16 + p / 2 ^ 16 % 256 * 2 ^ 8 +
    p / 2 ^ 24 % 256

example : commandOfBytes (bytesOfCommand Command.Kill) = Command.Kill := by decide
example : commandOfBytes [9] = Command.Unknown := by decide
example : bytesOfResponse { message := [], sup_pid := some 4242 } = [0, 0, 16, 146] := by decide
example : responseOfBytes [0, 0, 0, 1] = some { message := [], sup_pid := some 16777216 } := by decide
example : responseOfBytes [0, 0, 0, 0, 0xFF] = none := by decide

/-! ## Helper lemmas -/

/-- Unfolding `responseOfBytes` on an input with at least 4 bytes. -/
theorem responseOfBytes_cons (b0 b1 b2 b3 : Nat) (ms : List Nat) :
    responseOfBytes (b0 :: b1 :: b2 :: b3 :: ms) =
      Response.unmarshal_msg
        (Response.unmarshal_sup_pid { message := [], sup_pid := some 0 }
          [b0, b1, b2, b3]) ms := by
  unfold responseOfBytes
  rw [if_neg (by simp only [BYTES_PER_PID, List.length_cons]; omega)]
  rfl

/-- The accumulation loop of `unmarshal_sup_pid` on 4 bytes computes the
little-endian value; the wrapping `% 2 ^ 32` never truncates. -/
theorem unmarshalPidLoop_eq (b0 b1 b2 b3 : Nat) (h0 : b0 < 256) (h1 : b1 < 256)
    (h2 : b2 < 256) (h3 : b3 < 256) :
    unmarshalPidLoop 0 0 [b0, b1, b2, b3] =
      b0 + b1 * 2 ^ 8 + b2 * 2 ^ 16 + b3 * 2 ^ 24 := by
  simp [unmarshalPidLoop, Nat.shiftLeft_eq]
  omega

/-! ## Claim theorems -/

/-- C4: decoding the encoding of each of the seven named Command variants
yields the variant back; the encoding is the one-byte ordinal 0-6, Unknown
encodes to byte 7, and byte 7 decodes back to Unknown. -/
theorem command_roundtrip :
    (∀ c : Command, commandOfBytes (bytesOfCommand c) = c) ∧
    bytesOfCommand Command.Start = [0] ∧ bytesOfCommand Command.Stop = [1] ∧
    bytesOfCommand Command.Restart = [2] ∧ bytesOfCommand Command.Kill = [3] ∧
    bytesOfCommand Command.Reload = [4] ∧ bytesOfCommand Command.Status = [5] ∧
    bytesOfCommand Command.Exit = [6] ∧ bytesOfCommand Command.Unknown = [7] ∧
    commandOfBytes [7] = Command.Unknown :=
  ⟨fun c => by cases c <;> rfl, rfl, rfl, rfl, rfl, rfl, rfl, rfl, rfl, rfl⟩

/-- C5: Command decoding is total (every byte vector decodes to exactly one
Command); any input whose length is not 1 decodes to Unknown, and any
one-byte input whose byte is 7 or more decodes to Unknown. -/
theorem command_decode_total_unknown :
    (∀ v : List Nat, ∃! c : Command, commandOfBytes v = c) ∧
    (∀ v : List Nat, v.length ≠ 1 → commandOfBytes v = Command.Unknown) ∧
    (∀ b : Nat, 7 ≤ b → commandOfBytes [b] = Command.Unknown) := by
  refine ⟨fun v => ⟨commandOfBytes v, rfl, fun y hy => hy.symm⟩, fun v hv => ?_, fun b hb => ?_⟩
  · match v with
    | [] => rfl
    | [x] => exact absurd rfl hv
    | x :: y :: rest => rfl
  · obtain ⟨n, rfl⟩ : ∃ n, b = n + 7 := ⟨b - 7, by omega⟩
    rfl

/-- C5 witness: a 2-byte input and the byte 7 both decode to Unknown. -/
theorem command_decode_total_unknown_witness :
    commandOfBytes [0, 0] = Command.Unknown ∧
    commandOfBytes [7] = Command.Unknown :=
  ⟨command_decode_total_unknown.2.1 [0, 0] (by decide),
   command_decode_total_unknown.2.2 7 (by decide)⟩

/-- C3: the Response encoding is exactly 4 bytes holding the PID (0 when
sup_pid is None) most-significant-byte first, immediately followed by the
message bytes; the empty response with no PID and the empty response with
PID 0 encode to the identical bytes [0,0,0,0]. -/
theorem response_encode_layout :
    (∀ r : Response,
      bytesOfResponse r =
        [r.sup_pid.getD 0 / 2 ^ 24 % 256, r.sup_pid.getD 0 / 2 ^ 16 % 256,
         r.sup_pid.getD 0 / 2 ^ 8 % 256, r.sup_pid.getD 0 % 256] ++ r.message) ∧
    bytesOfResponse { message := [], sup_pid := none } = [0, 0, 0, 0] ∧
    bytesOfResponse { message := [], sup_pid := some 0 } = [0, 0, 0, 0] := by
  refine ⟨fun r => ?_, by decide, by decide⟩
  cases h : r.sup_pid <;>
    simp [bytesOfResponse, Response.marshal_sup_pid, Response.marshal_msg,
      Response.NONE_PID, h, Nat.shiftRight_eq_div_pow]

/-- C9: Response decoding of any input shorter than the 4-byte PID field
panics (the slice `v.index(..BYTES_PER_PID)` is out of range), modelled as
`none`: no Response and no typed error is ever produced there. -/
theorem response_decode_short_input_panics :
    ∀ v : List Nat, v.length < 4 → responseOfBytes v = none := by
  intro v hv
  unfold responseOfBytes
  simp only [BYTES_PER_PID]
  rw [if_pos hv]

/-- C9 witness: the empty input panics. -/
theorem response_decode_short_input_panics_witness :
    responseOfBytes [] = none :=
  response_decode_short_input_panics [] (by decide)

/-- Unfolding `unmarshal_sup_pid` at the decode start state `{message: "",
sup_pid: Some(0)}`. -/
theorem unmarshal_sup_pid_start (v : List Nat) :
    ({ message := [], sup_pid := some 0 } : Response).unmarshal_sup_pid v =
      (if unmarshalPidLoop 0 0 v = 0 then
        ({ message := [], sup_pid := none } : Response)
       else { message := [], sup_pid := some (unmarshalPidLoop 0 0 v) }) := rfl

/-- C2: Response decoding takes the first 4 bytes as the PID field and
reconstructs the PID by summing each byte shifted left by 8 times its
position (first byte least significant); value 0 gives sup_pid None,
anything else Some of the value.  Stated both for `unmarshal_sup_pid` at
the decode start state and for any Response that decoding returns. -/
theorem response_decode_pid_le (b0 b1 b2 b3 : Nat) (rest : List Nat)
    (h0 : b0 < 256) (h1 : b1 < 256) (h2 : b2 < 256) (h3 : b3 < 256) :
    (({ message := [], sup_pid := some 0 } : Response).unmarshal_sup_pid
        [b0, b1, b2, b3]).sup_pid =
      (if b0 + b1 * 2 ^ 8 + b2 * 2 ^ 16 + b3 * 2 ^ 24 = 0 then none
       else some (b0 + b1 * 2 ^ 8 + b2 * 2 ^ 16 + b3 * 2 ^ 24)) ∧
    (∀ r : Response, responseOfBytes (b0 :: b1 :: b2 :: b3 :: rest) = some r →
      r.sup_pid =
        (if b0 + b1 * 2 ^ 8 + b2 * 2 ^ 16 + b3 * 2 ^ 24 = 0 then none
         else some (b0 + b1 * 2 ^ 8 + b2 * 2 ^ 16 + b3 * 2 ^ 24))) := by
  have hl := unmarshalPidLoop_eq b0 b1 b2 b3 h0 h1 h2 h3
  have hfst : (({ message := [], sup_pid := some 0 } : Response).unmarshal_sup_pid
      [b0, b1, b2, b3]).sup_pid =
      (if b0 + b1 * 2 ^ 8 + b2 * 2 ^ 16 + b3 * 2 ^ 24 = 0 then none
       else some (b0 + b1 * 2 ^ 8 + b2 * 2 ^ 16 + b3 * 2 ^ 24)) := by
    rw [unmarshal_sup_pid_start, hl, apply_ite Response.sup_pid]
  refine ⟨hfst, fun r hr => ?_⟩
  rw [responseOfBytes_cons] at hr
  unfold Response.unmarshal_msg at hr
  by_cases hvu : validUtf8 rest = true
  · rw [if_pos hvu] at hr
    have hr2 := Option.some.inj hr
    subst hr2
    simpa using hfst
  · rw [if_neg hvu] at hr
    exact Option.noConfusion hr

/-- C2 witness: the byte vector [1,0,0,0] reconstructs PID 1. -/
theorem response_decode_pid_le_witness :
    (({ message := [], sup_pid := some 0 } : Response).unmarshal_sup_pid
        [1, 0, 0, 0]).sup_pid = some 1 := by
  have h := (response_decode_pid_le 1 0 0 0 [] (by decide) (by decide)
    (by decide) (by decide)).1
  simpa using h

/-- C8: on an input of length at least 4 whose remainder after the PID field
is not valid UTF-8, Response decoding panics (the unwrap in unmarshal_msg),
modelled as `none`; when the remainder is valid UTF-8 the decode succeeds
and the message equals exactly that remainder. -/
theorem response_decode_utf8 (v : List Nat) (hlen : 4 ≤ v.length) :
    (validUtf8 (v.drop 4) = false → responseOfBytes v = none) ∧
    (validUtf8 (v.drop 4) = true →
      ∃ r : Response, responseOfBytes v = some r ∧ r.message = v.drop 4) := by
  rcases v with _ | ⟨b0, v⟩
  · exact absurd hlen (by decide)
  rcases v with _ | ⟨b1, v⟩
  · simp only [List.length_cons, List.length_nil] at hlen
    exact absurd hlen (by omega)
  rcases v with _ | ⟨b2, v⟩
  · simp only [List.length_cons, List.length_nil] at hlen
    exact absurd hlen (by omega)
  rcases v with _ | ⟨b3, ms⟩
  · simp only [List.length_cons, List.length_nil] at hlen
    exact absurd hlen (by omega)
  rw [responseOfBytes_cons]
  constructor
  · intro hv
    have hv2 : validUtf8 ms = false := hv
    unfold Response.unmarshal_msg
    rw [hv2]
    rfl
  · intro hv
    have hv2 : validUtf8 ms = true := hv
    unfold Response.unmarshal_msg
    rw [if_pos hv2]
    exact ⟨_, rfl, rfl⟩

/-- C8 witness: [0,0,0,1,65] has the valid-UTF-8 remainder [65], and the
decoded message is exactly [65]. -/
theorem response_decode_utf8_witness :
    ∃ r : Response, responseOfBytes [0, 0, 0, 1, 65] = some r ∧
      r.message = [65] :=
  (response_decode_utf8 [0, 0, 0, 1, 65] (by decide)).2 (by decide)

/-- C1 counterexample: encoding Response{message: "", sup_pid: Some(1)} and
decoding it back does not return the original response (it yields PID
16777216, the byte reversal of 1). -/
theorem response_roundtrip_counterexample :
    responseOfBytes (bytesOfResponse { message := [], sup_pid := some 1 }) ≠
      some { message := [], sup_pid := some 1 } := by decide

/-- C1 (amended): for every valid-UTF-8 message m, decode of encode of
Response{m, None} returns Response{m, None}; for Some p with 0 < p < 2^32
it returns Response{m, Some(bswap32 p)} - the byte-reversed PID - because
encode is most-significant-byte first while decode is least-significant
first.  The round-trip as originally claimed holds only when p's 4-byte
representation is a palindrome. -/
theorem response_roundtrip_amended (m : List Nat) (hm : validUtf8 m = true) :
    responseOfBytes (bytesOfResponse { message := m, sup_pid := none }) =
      some { message := m, sup_pid := none } ∧
    (∀ p : Nat, 0 < p → p < 2 ^ 32 →
      responseOfBytes (bytesOfResponse { message := m, sup_pid := some p }) =
        some { message := m, sup_pid := some (bswap32 p) }) := by
  constructor
  · have hb : bytesOfResponse { message := m, sup_pid := none } =
        0 :: 0 :: 0 :: 0 :: m := by
      simp [bytesOfResponse, Response.marshal_sup_pid, Response.marshal_msg,
        Response.NONE_PID]
    rw [hb, responseOfBytes_cons]
    have hs : ({ message := [], sup_pid := some 0 } : Response).unmarshal_sup_pid
        [0, 0, 0, 0] = { message := [], sup_pid := none } := rfl
    rw [hs]
    unfold Response.unmarshal_msg
    rw [if_pos hm]
  · intro p hp0 hp32
    have hb : bytesOfResponse { message := m, sup_pid := some p } =
        ((p >>> 24) % 256) :: ((p >>> 16) % 256) :: ((p >>> 8) % 256) ::
          (p % 256) :: m := rfl
    rw [hb, responseOfBytes_cons]
    have hloop : unmarshalPidLoop 0 0
        [(p >>> 24) % 256, (p >>> 16) % 256, (p >>> 8) % 256, p % 256] =
          bswap32 p := by
      rw [unmarshalPidLoop_eq _ _ _ _ (Nat.mod_lt _ (by norm_num))
        (Nat.mod_lt _ (by norm_num)) (Nat.mod_lt _ (by norm_num))
        (Nat.mod_lt _ (by norm_num))]
      simp only [bswap32, Nat.shiftRight_eq_div_pow]
      ring
    have hne : ¬ bswap32 p = 0 := by
      unfold bswap32
      omega
    rw [unmarshal_sup_pid_start, hloop, if_neg hne]
    unfold Response.unmarshal_msg
    rw [if_pos hm]

/-- C6: write fails with StreamUsedBeforeInited when no connection is held,
regardless of I/O outcomes; with a held connection a send failure yields
WriteToStreamFailed, a half-close failure yields ShutdownStreamFailed, and
on success the bytes are appended, the write direction is closed, and the
connection is returned; the three errors are pairwise distinct. -/
theorem write_semantics :
    (∀ (path : String) (ch : Option Channel) (ls : Bool) (v : List Nat)
        (so sh : Outcome),
      (UnixSocketTp.mk path none ch ls).write v so sh =
        Except.error (ProcessErr.StreamUsedBeforeInited "write")) ∧
    (∀ (path : String) (ch : Option Channel) (ls : Bool) (s : ModelStream)
        (v : List Nat) (e : String) (sh : Outcome),
      (UnixSocketTp.mk path (some s) ch ls).write v (Outcome.fail e) sh =
        Except.error (ProcessErr.WriteToStreamFailed e)) ∧
    (∀ (path : String) (ch : Option Channel) (ls : Bool) (s : ModelStream)
        (v : List Nat) (e : String),
      (UnixSocketTp.mk path (some s) ch ls).write v Outcome.ok (Outcome.fail e) =
        Except.error (ProcessErr.ShutdownStreamFailed "write" e)) ∧
    (∀ (path : String) (ch : Option Channel) (ls : Bool) (s : ModelStream)
        (v : List Nat),
      (UnixSocketTp.mk path (some s) ch ls).write v Outcome.ok Outcome.ok =
        Except.ok { s with written := s.written ++ v, writeClosed := true }) ∧
    (∀ a b : String,
      ProcessErr.StreamUsedBeforeInited a ≠ ProcessErr.WriteToStreamFailed b) ∧
    (∀ a b c : String,
      ProcessErr.StreamUsedBeforeInited a ≠ ProcessErr.ShutdownStreamFailed b c) ∧
    (∀ a b c : String,
      ProcessErr.WriteToStreamFailed a ≠ ProcessErr.ShutdownStreamFailed b c) :=
  ⟨fun _ _ _ _ _ _ => rfl, fun _ _ _ _ _ _ _ => rfl, fun _ _ _ _ _ _ => rfl,
   fun _ _ _ _ _ => rfl, fun _ _ h => ProcessErr.noConfusion h,
   fun _ _ _ h => ProcessErr.noConfusion h, fun _ _ _ h => ProcessErr.noConfusion h⟩

/-- C7: read fails with ChannelUsedBeforeInited when listen_recv is absent,
fails with ReadFromChannelFail when the queue is empty and the producer has
disconnected, and otherwise returns the next queued connection; the two
errors are distinct. -/
theorem read_semantics :
    (∀ (path : String) (st : Option ModelStream) (ls : Bool),
      (UnixSocketTp.mk path st none ls).read =
        ReadRes.err (ProcessErr.ChannelUsedBeforeInited "recv")) ∧
    (∀ (path : String) (st : Option ModelStream) (ls : Bool),
      (UnixSocketTp.mk path st
          (some { queue := [], senderDropped := true }) ls).read =
        ReadRes.err (ProcessErr.ReadFromChannelFail recvDisconnectMsg)) ∧
    (∀ (path : String) (st : Option ModelStream) (ls : Bool) (c : ModelStream)
        (rest : List ModelStream) (d : Bool),
      (UnixSocketTp.mk path st
          (some { queue := c :: rest, senderDropped := d }) ls).read =
        ReadRes.ok c (UnixSocketTp.mk path st
          (some { queue := rest, senderDropped := d }) ls)) ∧
    (∀ a b : String,
      ProcessErr.ChannelUsedBeforeInited a ≠ ProcessErr.ReadFromChannelFail b) :=
  ⟨fun _ _ _ => rfl, fun _ _ _ => rfl, fun _ _ _ _ _ _ => rfl,
   fun _ _ h => ProcessErr.noConfusion h⟩

/-- C10: starting from a fresh transport, handing three accepted connections
a, b, c in that order to the channel and then performing three consecutive
reads returns a, then b, then c - exactly one connection per read, in FIFO
order. -/
theorem fifo_servicing (path : String) (st : Option ModelStream)
    (a b c : ModelStream) :
    (((UnixSocketTp.mk path st (some { queue := [], senderDropped := false })
        true).serveAccept a).serveAccept b).serveAccept c =
      UnixSocketTp.mk path st
        (some { queue := [a, b, c], senderDropped := false }) true ∧
    (UnixSocketTp.mk path st
        (some { queue := [a, b, c], senderDropped := false }) true).read =
      ReadRes.ok a (UnixSocketTp.mk path st
        (some { queue := [b, c], senderDropped := false }) true) ∧
    (UnixSocketTp.mk path st
        (some { queue := [b, c], senderDropped := false }) true).read =
      ReadRes.ok b (UnixSocketTp.mk path st
        (some { queue := [c], senderDropped := false }) true) ∧
    (UnixSocketTp.mk path st
        (some { queue := [c], senderDropped := false }) true).read =
      ReadRes.ok c (UnixSocketTp.mk path st
        (some { queue := [], senderDropped := false }) true) :=
  ⟨rfl, rfl, rfl, rfl⟩

/-- C1 witness: at message "hi" ([104,105]) and PID 1, the round-trip
returns PID bswap32 1 = 16777216. -/
theorem response_roundtrip_amended_witness :
    responseOfBytes (bytesOfResponse { message := [104, 105], sup_pid := some 1 }) =
      some { message := [104, 105], sup_pid := some (bswap32 1) } :=
  (response_roundtrip_amended [104, 105] (by decide)).2 1 (by decide) (by decide)
